import Mathlib

/-!
Verification of the HTTP inference client of the batch-gateway repository
(`internal/shared/batch/http_inference_client.go`): endpoint selection,
HTTP-status classification, exponential backoff with jitter, the single
attempt executor `generateOnce`, and the retry orchestrator `Generate`.

Network effects (marshalling, the HTTP round trip, body reading, JSON
parsing) are abstracted into explicit environment records supplying the
outcome of each effectful step; the control flow of the Go functions is
translated line by line over those outcomes.  `float64` arithmetic in
`calculateBackoff` is modelled over exact rationals, and the final
`time.Duration` cast as truncation toward zero.
-/

/-- A structured JSON-like value, modelling Go's `interface{}` holding the
result of `json.Unmarshal`. -/
inductive JsonVal where
  | null : JsonVal
  | bool : Bool → JsonVal
  | num : Int → JsonVal
  | str : String → JsonVal
  | arr : List JsonVal → JsonVal
  | obj : List (String × JsonVal) → JsonVal

/-- Error categories, from the `ErrorCategory` string constants
(`ErrCategoryRateLimit`, `ErrCategoryServer`, `ErrCategoryInvalidReq`,
`ErrCategoryAuth`, `ErrCategoryUnknown`). -/
inductive ErrorCategory where
  | rateLimit : ErrorCategory
  | server : ErrorCategory
  | invalidReq : ErrorCategory
  | auth : ErrorCategory
  | unknown : ErrorCategory
deriving DecidableEq, Repr

/-- Modelled from the spec: the `IsRetryable()` predicate on `InferenceError`
is "derived solely from `Category`", and "Only `RateLimit` and `Server` are
retryable"; its Go definition is not among the provided source files. -/
def ErrorCategory.isRetryable : ErrorCategory → Bool
  | .rateLimit => true
  | .server => true
  | _ => false

/-- `InferenceError`: category, human-readable message, optional underlying
cause (the Go `RawError error` field, rendered as text). -/
structure InferenceError where
  Category : ErrorCategory
  Message : String
  RawError : Option String := none
deriving DecidableEq, Repr

/-- Modelled from the spec: `IsRetryable()` on the error value is a pure
function of `Category` alone. -/
def InferenceError.IsRetryable (e : InferenceError) : Bool :=
  e.Category.isRetryable

/-- `InferenceRequest`: correlation id, model name, and the wire payload
`Params map[string]interface{}`, modelled as an association list. -/
structure InferenceRequest where
  RequestID : String
  Model : String
  Params : List (String × JsonVal)

/-- `InferenceResponse`: echoed id, raw body bytes (modelled as a string),
and the optionally parsed structured value (`RawData interface{}`, `none`
when parsing failed). -/
structure InferenceResponse where
  RequestID : String
  Response : String
  RawData : Option JsonVal

/-- `RetryConfig`.  `MaxRetries` is `int ≥ 0` per the data model;
the two durations are `time.Duration` nanosecond counts; the two factors
are `float64`, modelled as rationals. -/
structure RetryConfig where
  MaxRetries : Nat
  InitialBackoff : Int
  MaxBackoff : Int
  BackoffFactor : ℚ
  JitterFraction : ℚ

/-- The client state relevant to `Generate`: base URL, optional API key, and
retry configuration (the `*http.Client` itself is part of the abstracted
network environment). -/
structure HTTPInferenceClient where
  baseURL : String
  apiKey : String
  retryConfig : RetryConfig

/-- `determineEndpoint`: key-presence checks on the params mapping, in
source order. -/
def determineEndpoint (params : List (String × JsonVal)) : String :=
  if (params.lookup "messages").isSome then
    "/v1/chat/completions"
  else if (params.lookup "prompt").isSome then
    "/v1/completions"
  else
    "/v1/chat/completions"

/-- `mapStatusCodeToCategory`: the Go `switch` on the status code, cases in
source order, with the `default` arm's `>= 500` test. -/
def mapStatusCodeToCategory (statusCode : Nat) : ErrorCategory :=
  if statusCode = 400 then .invalidReq
  else if statusCode = 401 ∨ statusCode = 403 then .auth
  else if statusCode = 429 then .rateLimit
  else if statusCode = 500 ∨ statusCode = 502 ∨ statusCode = 503 ∨ statusCode = 504 then .server
  else if 500 ≤ statusCode then .server
  else .unknown

/-- `handleErrorResponse`: prefer the parsed OpenAI-style `error.message`
(supplied by the environment as `errMessage`, `none` when the envelope is
absent, unparseable, or has an empty message), else the raw body text. -/
def handleErrorResponse (statusCode : Nat) (body : String)
    (errMessage : Option String) : InferenceError :=
  let message := match errMessage with
    | some m => m
    | none => body
  { Category := mapStatusCodeToCategory statusCode
    Message := "HTTP " ++ toString statusCode ++ ": " ++ message
    RawError := some ("status code: " ++ toString statusCode ++ ", body: " ++ body) }

/-- The context states `ctx.Err()` can report. -/
inductive CtxErr where
  | canceled : CtxErr
  | deadlineExceeded : CtxErr
deriving DecidableEq, Repr

/-- Outcome of `c.client.Do(httpReq)`: either a transport failure (with the
context state observed by the subsequent `ctx.Err()` checks, `none` when the
context is live, and the transport error text), or a completed response with
a status code and the outcome of reading its body. -/
inductive SendResult where
  | failure : Option CtxErr → String → SendResult
  | success : Nat → Except String String → SendResult
deriving Repr

/-- Environment of one `generateOnce` call: the outcome of each effectful
step.  `marshal` is `json.Marshal(req.Params)`; `newReqErr` a possible
`http.NewRequestWithContext` failure; `send` the round trip; `unmarshalBody`
the result of `json.Unmarshal` on a 200 body (`none` on parse error, which
includes the empty body); `errMessage` the extracted OpenAI `error.message`
of a non-200 body (`none` when absent, unparseable, or empty). -/
structure OnceEnv where
  marshal : Except String String
  newReqErr : Option String
  send : SendResult
  unmarshalBody : Option JsonVal
  errMessage : Option String

/-- `generateOnce`: one attempt, control flow translated from the source.
Header construction and logging have no observable effect here. -/
def generateOnce (c : HTTPInferenceClient) (req : InferenceRequest)
    (env : OnceEnv) : Except InferenceError InferenceResponse :=
  let _endpoint := determineEndpoint req.Params
  match env.marshal with
  | .error e =>
    .error { Category := .invalidReq
             Message := "failed to marshal request: " ++ e
             RawError := some e }
  | .ok _requestBody =>
    match env.newReqErr with
    | some e =>
      .error { Category := .unknown
               Message := "failed to create HTTP request: " ++ e
               RawError := some e }
    | none =>
      match env.send with
      | .failure ctxState errText =>
        match ctxState with
        | some .canceled =>
          .error { Category := .unknown
                   Message := "request cancelled"
                   RawError := some errText }
        | some .deadlineExceeded =>
          .error { Category := .server
                   Message := "request timeout"
                   RawError := some errText }
        | none =>
          .error { Category := .server
                   Message := "failed to execute request: " ++ errText
                   RawError := some errText }
      | .success statusCode readBody =>
        match readBody with
        | .error e =>
          .error { Category := .server
                   Message := "failed to read response body: " ++ e
                   RawError := some e }
        | .ok responseBody =>
          if statusCode ≠ 200 then
            .error (handleErrorResponse statusCode responseBody env.errMessage)
          else
            .ok { RequestID := req.RequestID
                  Response := responseBody
                  RawData := env.unmarshalBody }

/-- Environment of a `Generate` call: for each attempt index, the outcome of
that attempt's `generateOnce` (`exec`), the `ctx.Err()` state observed at
the pre-backoff check after that attempt (`ctxErrAfter`), whether
`ctx.Done()` fires before the backoff timer in the wait after that attempt
(`waitCancelled`), and the `ctx.Err()` text recorded in that case
(`ctxErrInWait`). -/
structure GenEnv where
  exec : Nat → Except InferenceError InferenceResponse
  ctxErrAfter : Nat → Option CtxErr
  waitCancelled : Nat → Bool
  ctxErrInWait : Nat → Option String

/-- Body of the retry loop of `Generate`, from iteration `attempt` on,
paired with the number of `generateOnce` executions performed from that
iteration (instrumentation for counting attempts).  `gas` is fuel for
structural recursion; the wrapper `generateLoop` supplies
`maxRetries - attempt`, which the `maxRetries ≤ attempt` break makes
sufficient, so the fuel-exhausted arm is unreachable. -/
def generateLoopAux (env : GenEnv) (maxRetries : Nat) :
    Nat → Nat → Except InferenceError InferenceResponse × Nat
  | gas, attempt =>
    match env.exec attempt with
    | .ok resp => (.ok resp, 1)
    | .error err =>
      if !err.IsRetryable then
        (.error err, 1)
      else if maxRetries ≤ attempt then
        (.error err, 1)
      else if (env.ctxErrAfter attempt).isSome then
        (.error err, 1)
      else if env.waitCancelled attempt then
        (.error { Category := .unknown
                  Message := "request cancelled during retry"
                  RawError := env.ctxErrInWait attempt }, 1)
      else
        match gas with
        | 0 => (.error err, 1)
        | gas' + 1 =>
          let r := generateLoopAux env maxRetries gas' (attempt + 1)
          (r.fst, r.snd + 1)

/-- The retry loop of `Generate` started at iteration `attempt`. -/
def generateLoop (env : GenEnv) (maxRetries attempt : Nat) :
    Except InferenceError InferenceResponse × Nat :=
  generateLoopAux env maxRetries (maxRetries - attempt) attempt

/-- `Generate`: nil-request guard, retry-disabled single attempt, else the
retry loop from attempt 0.  The result is paired with the number of
`generateOnce` executions performed. -/
def Generate (c : HTTPInferenceClient) (req : Option InferenceRequest)
    (env : GenEnv) : Except InferenceError InferenceResponse × Nat :=
  match req with
  | none =>
    (.error { Category := .invalidReq
              Message := "request cannot be nil"
              RawError := none }, 0)
  | some _ =>
    if c.retryConfig.MaxRetries = 0 then
      (env.exec 0, 1)
    else
      generateLoop env c.retryConfig.MaxRetries 0

/-- The exponential backoff capped at `MaxBackoff`:
`backoff := float64(InitialBackoff) * math.Pow(BackoffFactor, attempt)`,
then `if backoff > float64(MaxBackoff) { backoff = float64(MaxBackoff) }`. -/
def cappedBackoff (cfg : RetryConfig) (attempt : Nat) : ℚ :=
  let backoff := (cfg.InitialBackoff : ℚ) * cfg.BackoffFactor ^ attempt
  if backoff > (cfg.MaxBackoff : ℚ) then (cfg.MaxBackoff : ℚ) else backoff

/-- The capped backoff plus jitter, with `u` the random draw
`rand.Float64()*2 - 1`, ranging over `[-1, 1)`:
`jitter := backoff * JitterFraction * u; backoff += jitter`. -/
def jitteredBackoff (cfg : RetryConfig) (attempt : Nat) (u : ℚ) : ℚ :=
  cappedBackoff cfg attempt + cappedBackoff cfg attempt * cfg.JitterFraction * u

/-- `calculateBackoff` before the `time.Duration` cast: the negative result
is clamped to `InitialBackoff` (`if backoff < 0 { backoff = InitialBackoff }`). -/
def calculateBackoffFloat (cfg : RetryConfig) (attempt : Nat) (u : ℚ) : ℚ :=
  if jitteredBackoff cfg attempt u < 0 then (cfg.InitialBackoff : ℚ)
  else jitteredBackoff cfg attempt u

/-- The Go `time.Duration(backoff)` cast: float-to-integer conversion
truncates toward zero, which on an exact rational is truncating division of
the numerator by the denominator. -/
def durationOfFloat (x : ℚ) : Int :=
  Int.tdiv x.num x.den

/-- `calculateBackoff`, returning a `time.Duration` nanosecond count. -/
def calculateBackoff (cfg : RetryConfig) (attempt : Nat) (u : ℚ) : Int :=
  durationOfFloat (calculateBackoffFloat cfg attempt u)

/-! Concrete sample inputs used to instantiate the theorems below. -/

/-- A sample request. -/
def reqW : InferenceRequest :=
  { RequestID := "r1", Model := "m", Params := [] }

/-- A retry configuration with the documented defaults (1s initial backoff,
60s max, factor 2, 10% jitter, all in nanoseconds) and `n` retries. -/
def cfgW (n : Nat) : RetryConfig :=
  { MaxRetries := n, InitialBackoff := 1000000000, MaxBackoff := 60000000000,
    BackoffFactor := 2, JitterFraction := 1/10 }

/-- A sample client with `n` retries configured. -/
def clientW (n : Nat) : HTTPInferenceClient :=
  { baseURL := "http://localhost:8000", apiKey := "", retryConfig := cfgW n }

/-- A rate-limit (retryable) error, as produced for HTTP 429. -/
def errRL : InferenceError :=
  { Category := .rateLimit, Message := "HTTP 429: Rate limit exceeded", RawError := none }

/-- An invalid-request (non-retryable) error, as produced for HTTP 400. -/
def errIR : InferenceError :=
  { Category := .invalidReq, Message := "HTTP 400: bad request", RawError := none }

/-- An environment where every attempt fails with the rate-limit error and
the context is never cancelled. -/
def envAllFail : GenEnv :=
  { exec := fun _ => .error errRL, ctxErrAfter := fun _ => none,
    waitCancelled := fun _ => false, ctxErrInWait := fun _ => none }

/-- An environment where every attempt fails with the invalid-request
(non-retryable) error. -/
def envNonRetry : GenEnv :=
  { exec := fun _ => .error errIR, ctxErrAfter := fun _ => none,
    waitCancelled := fun _ => false, ctxErrInWait := fun _ => none }

/-- An environment where every attempt fails with the rate-limit error and
the context is observed as already cancelled at the pre-backoff check. -/
def envCtxDone : GenEnv :=
  { exec := fun _ => .error errRL, ctxErrAfter := fun _ => some .canceled,
    waitCancelled := fun _ => false, ctxErrInWait := fun _ => none }

/-- An environment where every attempt fails with the rate-limit error and
the context is first observed cancelled at the pre-backoff check after
attempt 1 (the check after attempt 0 still sees a live context). -/
def envCtxDoneAt1 : GenEnv :=
  { exec := fun _ => .error errRL,
    ctxErrAfter := fun i => if i = 0 then none else some .canceled,
    waitCancelled := fun _ => false, ctxErrInWait := fun _ => none }

/-! Helper lemmas. -/

/-- For a nonnegative rational, truncation toward zero agrees with the
floor. -/
theorem durationOfFloat_eq_floor (x : ℚ) (hx : 0 ≤ x) :
    durationOfFloat x = ⌊x⌋ := by
  unfold durationOfFloat
  rw [Rat.floor_def]
  exact Int.tdiv_eq_ediv (Rat.num_nonneg.mpr hx) (Int.natCast_nonneg _)

/-- When every attempt from `attempt` through `maxRetries` fails with a
retryable error and the context is never observed cancelled, the loop body
runs all remaining iterations and ends with the last attempt's outcome. -/
theorem generateLoopAux_all_retryable (env : GenEnv) (maxRetries : Nat)
    (hfail : ∀ i, ∃ e, env.exec i = .error e ∧ e.IsRetryable = true)
    (hctx : ∀ i, env.ctxErrAfter i = none)
    (hwait : ∀ i, env.waitCancelled i = false) :
    ∀ k attempt, attempt + k = maxRetries →
      generateLoopAux env maxRetries k attempt = (env.exec maxRetries, k + 1) := by
  intro k
  induction k with
  | zero =>
    intro attempt hk
    have ha : attempt = maxRetries := by omega
    subst ha
    obtain ⟨e, he, hr⟩ := hfail attempt
    unfold generateLoopAux
    rw [he]
    simp [hr, he]
  | succ k ih =>
    intro attempt hk
    obtain ⟨e, he, hr⟩ := hfail attempt
    unfold generateLoopAux
    rw [he]
    have hlt : ¬ maxRetries ≤ attempt := by omega
    simp only [hr, Bool.not_true, Bool.false_eq_true, if_false, hlt, hctx attempt,
      Option.isSome_none, hwait attempt]
    rw [ih (attempt + 1) (by omega)]

/-- When every attempt before `a` fails with a retryable error with the
context observed live at its pre-backoff check and an uncancelled wait, the
loop reaches iteration `a`; if attempt `a` then fails retryably with retries
remaining and the context observed cancelled at the pre-backoff check, the
loop returns attempt `a`'s error after `d + 1` further executions, where
`d` is the distance from the current iteration `j` to `a`. -/
theorem generateLoopAux_reaches_ctx_cancel (env : GenEnv) (maxRetries a : Nat)
    (e : InferenceError)
    (hpath : ∀ i, i < a → ∃ ei, env.exec i = .error ei ∧ ei.IsRetryable = true ∧
      env.ctxErrAfter i = none ∧ env.waitCancelled i = false)
    (ha : env.exec a = .error e) (hr : e.IsRetryable = true)
    (hlt : a < maxRetries)
    (hctx : (env.ctxErrAfter a).isSome = true) :
    ∀ d j, j + d = a →
      generateLoopAux env maxRetries (maxRetries - j) j = (.error e, d + 1) := by
  intro d
  induction d with
  | zero =>
    intro j hj
    have hja : j = a := by omega
    subst hja
    unfold generateLoopAux
    rw [ha]
    have hnle : ¬ maxRetries ≤ j := by omega
    simp [hr, hnle, hctx]
  | succ d ih =>
    intro j hj
    obtain ⟨ei, hei, hri, hctxi, hwi⟩ := hpath j (by omega)
    unfold generateLoopAux
    rw [hei]
    have hnle : ¬ maxRetries ≤ j := by omega
    have hgas : maxRetries - j = (maxRetries - (j + 1)) + 1 := by omega
    simp only [hri, Bool.not_true, Bool.false_eq_true, if_false, hnle, hctxi,
      Option.isSome_none, hwi, hgas]
    rw [ih (j + 1) (by omega)]

/-- C1: with `MaxRetries = N > 0`, if every attempt fails with a retryable
error and the context is never cancelled, `Generate` performs exactly
`N + 1` attempt executions and returns the error of the last attempt, with
no response. -/
theorem C1_retry_exhaustion (c : HTTPInferenceClient) (req : InferenceRequest)
    (env : GenEnv) (hN : 0 < c.retryConfig.MaxRetries)
    (hfail : ∀ i, ∃ e, env.exec i = .error e ∧ e.IsRetryable = true)
    (hctx : ∀ i, env.ctxErrAfter i = none)
    (hwait : ∀ i, env.waitCancelled i = false) :
    ∃ e, env.exec c.retryConfig.MaxRetries = .error e ∧
      Generate c (some req) env = (.error e, c.retryConfig.MaxRetries + 1) := by
  obtain ⟨e, he, _⟩ := hfail c.retryConfig.MaxRetries
  refine ⟨e, he, ?_⟩
  unfold Generate generateLoop
  rw [if_neg (by omega)]
  rw [Nat.sub_zero,
    generateLoopAux_all_retryable env c.retryConfig.MaxRetries hfail hctx hwait
      c.retryConfig.MaxRetries 0 (by omega), he]

/-- C1 witness: with `MaxRetries = 2` and every attempt answering HTTP 429,
`Generate` makes 3 attempts and returns the rate-limit error. -/
theorem C1_retry_exhaustion_witness :
    0 < (clientW 2).retryConfig.MaxRetries ∧
    (∃ e, envAllFail.exec (clientW 2).retryConfig.MaxRetries = .error e ∧
      Generate (clientW 2) (some reqW) envAllFail =
        (.error e, (clientW 2).retryConfig.MaxRetries + 1)) :=
  ⟨by decide,
   C1_retry_exhaustion (clientW 2) reqW envAllFail (by decide)
     (fun _ => ⟨errRL, rfl, rfl⟩) (fun _ => rfl) (fun _ => rfl)⟩

/-- C2: if the first attempt fails with a non-retryable error, `Generate`
performs exactly one attempt and returns that error immediately, for every
value of `MaxRetries`. -/
theorem C2_nonretryable_single_attempt (c : HTTPInferenceClient)
    (req : InferenceRequest) (env : GenEnv) (e : InferenceError)
    (h0 : env.exec 0 = .error e) (hnr : e.IsRetryable = false) :
    Generate c (some req) env = (.error e, 1) := by
  unfold Generate
  by_cases h : c.retryConfig.MaxRetries = 0
  · rw [if_pos h, h0]
  · rw [if_neg h]
    unfold generateLoop generateLoopAux
    rw [h0]
    simp [hnr]

/-- C2 witness: an HTTP 400 first attempt with `MaxRetries = 5` yields
exactly one attempt and the invalid-request error. -/
theorem C2_nonretryable_single_attempt_witness :
    envNonRetry.exec 0 = .error errIR ∧ errIR.IsRetryable = false ∧
    Generate (clientW 5) (some reqW) envNonRetry = (.error errIR, 1) :=
  ⟨rfl, rfl, C2_nonretryable_single_attempt (clientW 5) reqW envNonRetry errIR rfl rfl⟩

/-- C3 counterexample: `MaxRetries = 2`, attempt 0 fails with a retryable
rate-limit error, and the context is observed as already cancelled at the
pre-backoff check.  `Generate` returns the prior attempt's rate-limit error
unchanged — not an error of category `Unknown` describing the cancellation,
contradicting the claim. -/
theorem C3_counterexample :
    Generate (clientW 2) (some reqW) envCtxDone = (.error errRL, 1) ∧
    errRL.Category = .rateLimit ∧ errRL.Category ≠ .unknown := by
  refine ⟨rfl, rfl, by decide⟩

/-- C3 as amended: whenever an attempt of the retry loop fails with a
retryable error, retries remain, and the execution context is already
cancelled or expired before the backoff wait, `Generate` terminates and
returns that attempt's error unchanged (it does not build a cancellation
error of category `Unknown`).  The loop reaching attempt `a` is expressed by
the path hypothesis: every earlier attempt failed retryably with a live
context at its pre-backoff check and an uncancelled wait. -/
theorem C3_precheck_returns_prior_error (c : HTTPInferenceClient)
    (req : InferenceRequest) (env : GenEnv) (a : Nat) (e : InferenceError)
    (hpath : ∀ i, i < a → ∃ ei, env.exec i = .error ei ∧ ei.IsRetryable = true ∧
      env.ctxErrAfter i = none ∧ env.waitCancelled i = false)
    (ha : env.exec a = .error e) (hr : e.IsRetryable = true)
    (hlt : a < c.retryConfig.MaxRetries)
    (hctx : (env.ctxErrAfter a).isSome = true) :
    Generate c (some req) env = (.error e, a + 1) := by
  unfold Generate generateLoop
  rw [if_neg (by omega), Nat.sub_zero]
  have := generateLoopAux_reaches_ctx_cancel env c.retryConfig.MaxRetries a e
    hpath ha hr hlt hctx a 0 (by omega)
  rw [Nat.sub_zero] at this
  exact this

/-- C3 amended witness: `MaxRetries = 3`, attempts answering HTTP 429, and
the context first observed cancelled at the pre-backoff check after
attempt 1: `Generate` stops after 2 executions with the rate-limit error of
attempt 1 unchanged. -/
theorem C3_precheck_returns_prior_error_witness :
    envCtxDoneAt1.exec 1 = .error errRL ∧ errRL.IsRetryable = true ∧
    1 < (clientW 3).retryConfig.MaxRetries ∧
    (envCtxDoneAt1.ctxErrAfter 1).isSome = true ∧
    Generate (clientW 3) (some reqW) envCtxDoneAt1 = (.error errRL, 2) :=
  ⟨rfl, rfl, by decide, rfl,
   C3_precheck_returns_prior_error (clientW 3) reqW envCtxDoneAt1 1 errRL
     (fun i hi =>
       match i with
       | 0 => ⟨errRL, rfl, rfl, rfl, rfl⟩
       | j + 1 => absurd hi (by omega))
     rfl rfl (by decide) rfl⟩

/-- C7: with `MaxRetries = 0`, `Generate` performs exactly one attempt and
returns that attempt's outcome as final, whatever it is. -/
theorem C7_retry_disabled_single_attempt (c : HTTPInferenceClient)
    (req : InferenceRequest) (env : GenEnv)
    (h : c.retryConfig.MaxRetries = 0) :
    Generate c (some req) env = (env.exec 0, 1) := by
  unfold Generate
  rw [if_pos h]

/-- C7 witness: retry disabled, every attempt failing retryably; still only
one attempt occurs and its error is final. -/
theorem C7_retry_disabled_single_attempt_witness :
    (clientW 0).retryConfig.MaxRetries = 0 ∧
    Generate (clientW 0) (some reqW) envAllFail = (envAllFail.exec 0, 1) :=
  ⟨rfl, C7_retry_disabled_single_attempt (clientW 0) reqW envAllFail rfl⟩

/-- C10: a nil request yields no response and an `InvalidRequest`
(non-retryable) error, with zero attempt executions, for every client
configuration and environment. -/
theorem C10_nil_request_rejected (c : HTTPInferenceClient) (env : GenEnv) :
    ∃ e, Generate c none env = (.error e, 0) ∧
      e.Category = .invalidReq ∧ e.IsRetryable = false :=
  ⟨{ Category := .invalidReq, Message := "request cannot be nil", RawError := none },
   rfl, rfl, rfl⟩

/-- C5: for every status code other than 200, the classifier maps 400 to
`InvalidRequest`, 401/403 to `Auth`, 429 to `RateLimit`, every code ≥ 500
to `Server`, and every remaining code to `Unknown`; and of the categories,
exactly `RateLimit` and `Server` are retryable. -/
theorem C5_status_classification (n : Nat) (hn : n ≠ 200) :
    (n = 400 → mapStatusCodeToCategory n = .invalidReq) ∧
    ((n = 401 ∨ n = 403) → mapStatusCodeToCategory n = .auth) ∧
    (n = 429 → mapStatusCodeToCategory n = .rateLimit) ∧
    (500 ≤ n → mapStatusCodeToCategory n = .server) ∧
    ((n ≠ 400 ∧ n ≠ 401 ∧ n ≠ 403 ∧ n ≠ 429 ∧ n < 500) →
      mapStatusCodeToCategory n = .unknown) ∧
    (∀ c : ErrorCategory,
      c.isRetryable = true ↔ (c = .rateLimit ∨ c = .server)) := by
  refine ⟨?_, ?_, ?_, ?_, ?_, ?_⟩
  · intro h; subst h; rfl
  · rintro (h | h) <;> subst h <;> rfl
  · intro h; subst h; rfl
  · intro h
    unfold mapStatusCodeToCategory
    rw [if_neg (by omega), if_neg (by omega), if_neg (by omega)]
    by_cases h4 : n = 500 ∨ n = 502 ∨ n = 503 ∨ n = 504
    · rw [if_pos h4]
    · rw [if_neg h4, if_pos h]
  · rintro ⟨h1, h2, h3, h4, h5⟩
    unfold mapStatusCodeToCategory
    rw [if_neg h1, if_neg (by omega), if_neg h4, if_neg (by omega),
      if_neg (by omega)]
  · intro c
    cases c <;> simp [ErrorCategory.isRetryable]

/-- C5 witness: the classification at the concrete code 404 (an "other 4xx"),
with the retryability table checked on all five categories. -/
theorem C5_status_classification_witness :
    (404 : Nat) ≠ 200 ∧
    (((404 : Nat) = 400 → mapStatusCodeToCategory 404 = .invalidReq) ∧
     (((404 : Nat) = 401 ∨ (404 : Nat) = 403) → mapStatusCodeToCategory 404 = .auth) ∧
     ((404 : Nat) = 429 → mapStatusCodeToCategory 404 = .rateLimit) ∧
     (500 ≤ (404 : Nat) → mapStatusCodeToCategory 404 = .server) ∧
     (((404 : Nat) ≠ 400 ∧ (404 : Nat) ≠ 401 ∧ (404 : Nat) ≠ 403 ∧
       (404 : Nat) ≠ 429 ∧ (404 : Nat) < 500) →
       mapStatusCodeToCategory 404 = .unknown) ∧
     (∀ c : ErrorCategory,
       c.isRetryable = true ↔ (c = .rateLimit ∨ c = .server))) :=
  ⟨by decide, C5_status_classification 404 (by decide)⟩

/-- C6: when the network send fails without an HTTP response, the error
category is `Unknown` (non-retryable) if the context was observed cancelled,
`Server` (retryable) if its deadline was exceeded, and `Server` (retryable)
for any other transport failure. -/
theorem C6_transport_failure_classification (c : HTTPInferenceClient)
    (req : InferenceRequest) (env : OnceEnv) (body : String)
    (st : Option CtxErr) (msg : String)
    (hm : env.marshal = .ok body) (hn : env.newReqErr = none)
    (hs : env.send = .failure st msg) :
    ∃ e, generateOnce c req env = .error e ∧
      (st = some .canceled → e.Category = .unknown ∧ e.IsRetryable = false) ∧
      (st = some .deadlineExceeded → e.Category = .server ∧ e.IsRetryable = true) ∧
      (st = none → e.Category = .server ∧ e.IsRetryable = true) := by
  unfold generateOnce
  rw [hm, hn, hs]
  match st with
  | some .canceled =>
    exact ⟨_, rfl, fun _ => ⟨rfl, rfl⟩, by simp, by simp⟩
  | some .deadlineExceeded =>
    exact ⟨_, rfl, by simp, fun _ => ⟨rfl, rfl⟩, by simp⟩
  | none =>
    exact ⟨_, rfl, by simp, by simp, fun _ => ⟨rfl, rfl⟩⟩

/-- C6 witness: a plain network failure (context still live) is classified
as a retryable `Server` error. -/
theorem C6_transport_failure_classification_witness :
    ({ marshal := .ok "{}", newReqErr := none,
       send := .failure none "connection refused", unmarshalBody := none,
       errMessage := none } : OnceEnv).marshal = .ok "{}" ∧
    (∃ e, generateOnce (clientW 3) reqW
        { marshal := .ok "{}", newReqErr := none,
          send := .failure none "connection refused", unmarshalBody := none,
          errMessage := none } = .error e ∧
      (none = some CtxErr.canceled → e.Category = .unknown ∧ e.IsRetryable = false) ∧
      (none = some CtxErr.deadlineExceeded → e.Category = .server ∧ e.IsRetryable = true) ∧
      ((none : Option CtxErr) = none → e.Category = .server ∧ e.IsRetryable = true)) :=
  ⟨rfl, C6_transport_failure_classification (clientW 3) reqW _ "{}" none
    "connection refused" rfl rfl rfl⟩

/-- C8: endpoint selection is deterministic and ordered: a `messages` key
selects the chat path (even alongside `prompt`), else a `prompt` key selects
the completion path, else the chat path is the default. -/
theorem C8_endpoint_selection (params : List (String × JsonVal)) :
    ((params.lookup "messages").isSome = true →
      determineEndpoint params = "/v1/chat/completions") ∧
    (params.lookup "messages" = none → (params.lookup "prompt").isSome = true →
      determineEndpoint params = "/v1/completions") ∧
    (params.lookup "messages" = none → params.lookup "prompt" = none →
      determineEndpoint params = "/v1/chat/completions") := by
  refine ⟨?_, ?_, ?_⟩
  · intro h
    unfold determineEndpoint
    rw [if_pos h]
  · intro hm hp
    unfold determineEndpoint
    rw [hm]
    simp only [Option.isSome_none, Bool.false_eq_true, if_false]
    rw [if_pos hp]
  · intro hm hp
    unfold determineEndpoint
    rw [hm, hp]
    simp

/-- C8 witness: a mapping containing both `messages` and `prompt` selects
the chat-completion path. -/
theorem C8_endpoint_selection_witness :
    (([("messages", JsonVal.null), ("prompt", JsonVal.null)].lookup
        "messages").isSome = true) ∧
    determineEndpoint [("messages", JsonVal.null), ("prompt", JsonVal.null)] =
      "/v1/chat/completions" :=
  ⟨by decide,
   (C8_endpoint_selection [("messages", JsonVal.null), ("prompt", JsonVal.null)]).1
     (by decide)⟩

/-- C9: an attempt completing with HTTP 200 whose body fails to parse as
JSON (including the empty body) succeeds: the raw body is preserved, the
structured value is absent, and no error is reported. -/
theorem C9_malformed_200_body_is_success (c : HTTPInferenceClient)
    (req : InferenceRequest) (env : OnceEnv) (mb body : String)
    (hm : env.marshal = .ok mb) (hn : env.newReqErr = none)
    (hs : env.send = .success 200 (.ok body))
    (hu : env.unmarshalBody = none) :
    generateOnce c req env =
      .ok { RequestID := req.RequestID, Response := body, RawData := none } := by
  unfold generateOnce
  rw [hm, hn, hs, hu]
  simp

/-- C9 witness: HTTP 200 with the empty (hence unparseable) body yields a
success with empty raw body and absent structured value. -/
theorem C9_malformed_200_body_is_success_witness :
    ({ marshal := .ok "{}", newReqErr := none, send := .success 200 (.ok ""),
       unmarshalBody := none, errMessage := none } : OnceEnv).unmarshalBody = none ∧
    generateOnce (clientW 3) reqW
      { marshal := .ok "{}", newReqErr := none, send := .success 200 (.ok ""),
        unmarshalBody := none, errMessage := none } =
      .ok { RequestID := reqW.RequestID, Response := "", RawData := none } :=
  ⟨rfl, C9_malformed_200_body_is_success (clientW 3) reqW _ "{}" "" rfl rfl rfl rfl⟩

/-- C4: under the data-model constraints (`MaxRetries > 0`,
`InitialBackoff > 0`, `MaxBackoff ≥ InitialBackoff`, `BackoffFactor ≥ 1`,
`JitterFraction ∈ [0,1)`) and any jitter draw `u ∈ [-1,1)`, the computed
delay satisfies `0 ≤ delay ≤ MaxBackoff × (1 + JitterFraction)`; and
whenever the jittered value is negative the clamp yields `InitialBackoff`
rather than zero. -/
theorem C4_backoff_bounds (cfg : RetryConfig) (a : Nat) (u : ℚ)
    (hMR : 0 < cfg.MaxRetries)
    (hI : 0 < cfg.InitialBackoff)
    (hIM : cfg.InitialBackoff ≤ cfg.MaxBackoff)
    (hF : 1 ≤ cfg.BackoffFactor)
    (hJ0 : 0 ≤ cfg.JitterFraction) (hJ1 : cfg.JitterFraction < 1)
    (hu1 : -1 ≤ u) (hu2 : u < 1) :
    0 ≤ calculateBackoff cfg a u ∧
    (calculateBackoff cfg a u : ℚ) ≤
      (cfg.MaxBackoff : ℚ) * (1 + cfg.JitterFraction) ∧
    (∀ v : ℚ, jitteredBackoff cfg a v < 0 →
      calculateBackoffFloat cfg a v = (cfg.InitialBackoff : ℚ)) := by
  have hIq : (0 : ℚ) < (cfg.InitialBackoff : ℚ) := by exact_mod_cast hI
  have hIMq : (cfg.InitialBackoff : ℚ) ≤ (cfg.MaxBackoff : ℚ) := by
    exact_mod_cast hIM
  have hpow : (1 : ℚ) ≤ cfg.BackoffFactor ^ a := one_le_pow₀ hF
  have hcdef : cappedBackoff cfg a =
      if (cfg.InitialBackoff : ℚ) * cfg.BackoffFactor ^ a > (cfg.MaxBackoff : ℚ)
      then (cfg.MaxBackoff : ℚ)
      else (cfg.InitialBackoff : ℚ) * cfg.BackoffFactor ^ a := rfl
  have hr0 : 0 < cappedBackoff cfg a := by
    rw [hcdef]
    split_ifs
    · linarith
    · nlinarith
  have hrM : cappedBackoff cfg a ≤ (cfg.MaxBackoff : ℚ) := by
    rw [hcdef]
    split_ifs with h
    · exact le_refl _
    · linarith [not_lt.mp h]
  have hju : -cfg.JitterFraction ≤ cfg.JitterFraction * u := by
    nlinarith
  have h1ju : 0 < 1 + cfg.JitterFraction * u := by linarith
  have hjeq : jitteredBackoff cfg a u =
      cappedBackoff cfg a * (1 + cfg.JitterFraction * u) := by
    unfold jitteredBackoff
    ring
  have hjpos : 0 < jitteredBackoff cfg a u := by
    rw [hjeq]
    exact mul_pos hr0 h1ju
  have hjle : jitteredBackoff cfg a u ≤
      (cfg.MaxBackoff : ℚ) * (1 + cfg.JitterFraction) := by
    unfold jitteredBackoff
    nlinarith [mul_le_mul_of_nonneg_left hu2.le
        (mul_nonneg hr0.le hJ0),
      mul_le_mul_of_nonneg_right hrM hJ0]
  have hfeq : calculateBackoffFloat cfg a u = jitteredBackoff cfg a u := by
    unfold calculateBackoffFloat
    rw [if_neg (not_lt.mpr hjpos.le)]
  have hdur : calculateBackoff cfg a u = ⌊jitteredBackoff cfg a u⌋ := by
    unfold calculateBackoff
    rw [hfeq, durationOfFloat_eq_floor _ hjpos.le]
  refine ⟨?_, ?_, ?_⟩
  · rw [hdur]
    exact Int.floor_nonneg.mpr hjpos.le
  · rw [hdur]
    exact le_trans (Int.floor_le _) hjle
  · intro v hv
    unfold calculateBackoffFloat
    rw [if_pos hv]

/-- C4 witness: the default configuration (1s initial, 60s max, factor 2,
10% jitter) at attempt 0 with jitter draw 0. -/
theorem C4_backoff_bounds_witness :
    0 < (cfgW 3).MaxRetries ∧ 0 < (cfgW 3).InitialBackoff ∧
    (cfgW 3).InitialBackoff ≤ (cfgW 3).MaxBackoff ∧
    1 ≤ (cfgW 3).BackoffFactor ∧
    0 ≤ (cfgW 3).JitterFraction ∧ (cfgW 3).JitterFraction < 1 ∧
    (-1 : ℚ) ≤ 0 ∧ (0 : ℚ) < 1 ∧
    (0 ≤ calculateBackoff (cfgW 3) 0 0 ∧
     (calculateBackoff (cfgW 3) 0 0 : ℚ) ≤
       ((cfgW 3).MaxBackoff : ℚ) * (1 + (cfgW 3).JitterFraction) ∧
     (∀ v : ℚ, jitteredBackoff (cfgW 3) 0 v < 0 →
       calculateBackoffFloat (cfgW 3) 0 v = ((cfgW 3).InitialBackoff : ℚ))) :=
  ⟨by norm_num [cfgW], by norm_num [cfgW], by norm_num [cfgW],
   by norm_num [cfgW], by norm_num [cfgW], by norm_num [cfgW],
   by norm_num, by norm_num,
   C4_backoff_bounds (cfgW 3) 0 0 (by norm_num [cfgW]) (by norm_num [cfgW])
     (by norm_num [cfgW]) (by norm_num [cfgW]) (by norm_num [cfgW])
     (by norm_num [cfgW]) (by norm_num) (by norm_num)⟩
